import Mathlib

/-!
Verification of the CPU capability-detection binding
(`torch/csrc/cpu/Module.cpp`) and of the capability-registry core that the
specification describes around it.

The repository fragment itself is the pybind registration shim
`torch::cpu::initModule`; the detection functions `at::cpu::is_cpu_support_*`
and the caching registry are outside the provided sources, so they are
modelled here from the specification (each such definition carries a
`Modelled from the spec:` doc comment).
-/

namespace CpuCapability

/-- Modelled from the spec: a CPU identification data source (the glossary's
"probe" input).  `maxLeaf` is the maximum supported leaf index; `leaf7ebx`
and `leaf7ecx` are the raw bitmask registers of the extended-features leaf
(leaf 7, sub-leaf 0), which hold the AVX2 / AVX512F / AVX512-VNNI bits at
fixed vendor-specified positions. -/
structure CpuId where
  maxLeaf : Nat
  leaf7ebx : Nat
  leaf7ecx : Nat
deriving Repr, DecidableEq

/-- The extended-features leaf index (CPUID leaf 7). -/
def extendedFeaturesLeaf : Nat := 7

/-- Fixed vendor-specified bit position of AVX2 in leaf 7 EBX. -/
def avx2Bit : Nat := 5

/-- Fixed vendor-specified bit position of AVX512F in leaf 7 EBX. -/
def avx512fBit : Nat := 16

/-- Fixed vendor-specified bit position of AVX512-VNNI in leaf 7 ECX. -/
def vnniBit : Nat := 11

/-- The immutable record of detection results, one boolean per recognized
feature. -/
structure CapabilityFlags where
  supportsAVX2 : Bool
  supportsAVX512 : Bool
  supportsVNNI : Bool
deriving Repr, DecidableEq

/-- The all-false record: every feature reported absent. -/
def allFalse : CapabilityFlags := ⟨false, false, false⟩

/-- Modelled from the spec: the hardware probe.  `none` stands for a platform
that cannot execute the probe at all (unsupported architecture); on such a
platform, and on a CPU whose maximum supported leaf index is below the
extended-features leaf, the probe reports every feature absent.  Otherwise it
decodes exactly the fixed bit positions of the three recognized features. -/
def probe (cpu : Option CpuId) : CapabilityFlags :=
  match cpu with
  | none => allFalse
  | some c =>
      if c.maxLeaf < extendedFeaturesLeaf then allFalse
      else
        ⟨Nat.testBit c.leaf7ebx avx2Bit,
         Nat.testBit c.leaf7ebx avx512fBit,
         Nat.testBit c.leaf7ecx vnniBit⟩

/-- The closed enumeration of recognized feature identifiers. -/
inductive FeatureId where
  | AVX2
  | AVX512
  | VNNI
deriving Repr, DecidableEq

/-- Projects the flag of one feature out of a `CapabilityFlags` record. -/
def flagOf (f : FeatureId) (flags : CapabilityFlags) : Bool :=
  match f with
  | .AVX2 => flags.supportsAVX2
  | .AVX512 => flags.supportsAVX512
  | .VNNI => flags.supportsVNNI

/-- Modelled from the spec: the state of the `CapabilityRegistry` — the
lazily populated cache of the probe outcome, instrumented with a probe
call-counter as the spec's testable-properties section prescribes. -/
structure RegistryState where
  cache : Option CapabilityFlags
  probeCount : Nat
deriving Repr, DecidableEq

/-- The registry state of a fresh process: no cached record, no probe run. -/
def freshRegistry : RegistryState := ⟨none, 0⟩

/-- Modelled from the spec: `CapabilityRegistry.isSupported`.  The first call
on a fresh process performs the hardware probe and caches the outcome;
subsequent calls return the cached value without re-probing.  The spec's
one-time-initialization barrier admits exactly one initializer, so each call
is modelled as one atomic step. -/
def isSupported (cpu : Option CpuId) (f : FeatureId) (s : RegistryState) :
    Bool × RegistryState :=
  match s.cache with
  | some flags => (flagOf f flags, s)
  | none =>
      let flags := probe cpu
      (flagOf f flags, ⟨some flags, s.probeCount + 1⟩)

/-- Runs a sequence of feature queries through the registry, returning the
observed booleans and the final registry state. -/
def runQueries (cpu : Option CpuId) (fs : List FeatureId) (s : RegistryState) :
    List Bool × RegistryState :=
  match fs with
  | [] => ([], s)
  | f :: rest =>
      let step := isSupported cpu f s
      let next := runQueries cpu rest step.2
      (step.1 :: next.1, next.2)

/-- A CPU identification source that cannot deliver extended feature data:
either the platform cannot execute the probe at all, or the maximum
supported leaf index is below the extended-features leaf. -/
def lacksExtendedLeaf : Option CpuId → Prop
  | none => True
  | some c => c.maxLeaf < extendedFeaturesLeaf

/-- Registry-state invariant: the cache is either unpopulated or holds
exactly the record direct probing would produce. -/
def goodState (cpu : Option CpuId) (s : RegistryState) : Prop :=
  s.cache = none ∨ s.cache = some (probe cpu)

theorem isSupported_cached (cpu : Option CpuId) (f : FeatureId)
    (s : RegistryState) (flags : CapabilityFlags)
    (h : s.cache = some flags) :
    isSupported cpu f s = (flagOf f flags, s) := by
  simp [isSupported, h]

theorem isSupported_uncached (cpu : Option CpuId) (f : FeatureId)
    (s : RegistryState) (h : s.cache = none) :
    isSupported cpu f s
      = (flagOf f (probe cpu), ⟨some (probe cpu), s.probeCount + 1⟩) := by
  simp [isSupported, h]

theorem isSupported_good_fst (cpu : Option CpuId) (f : FeatureId)
    (s : RegistryState) (h : goodState cpu s) :
    (isSupported cpu f s).1 = flagOf f (probe cpu) := by
  rcases h with h | h
  · rw [isSupported_uncached cpu f s h]
  · rw [isSupported_cached cpu f s (probe cpu) h]

theorem isSupported_good_preserved (cpu : Option CpuId) (f : FeatureId)
    (s : RegistryState) (h : goodState cpu s) :
    goodState cpu (isSupported cpu f s).2 := by
  rcases h with h | h
  · rw [isSupported_uncached cpu f s h]; exact Or.inr rfl
  · rw [isSupported_cached cpu f s (probe cpu) h]; exact Or.inr h

theorem runQueries_good_preserved (cpu : Option CpuId) (fs : List FeatureId)
    (s : RegistryState) (h : goodState cpu s) :
    goodState cpu (runQueries cpu fs s).2 := by
  induction fs generalizing s with
  | nil => exact h
  | cons f rest ih =>
      exact ih (isSupported cpu f s).2 (isSupported_good_preserved cpu f s h)

theorem runQueries_cached (cpu : Option CpuId) (fs : List FeatureId)
    (s : RegistryState) (h : s.cache = some (probe cpu)) :
    runQueries cpu fs s = (fs.map (fun f => flagOf f (probe cpu)), s) := by
  induction fs with
  | nil => rfl
  | cons f rest ih =>
      simp [runQueries, isSupported_cached cpu f s (probe cpu) h, ih]

theorem goodState_fresh (cpu : Option CpuId) : goodState cpu freshRegistry :=
  Or.inl rfl

/-- Modelled from the spec: `at::cpu::is_cpu_support_avx2` (declared in
`ATen/cpu/Utils.h`, outside the provided sources) — queries AVX2 support of
the executing CPU, taking no input and returning a boolean. -/
def is_cpu_support_avx2 (cpu : Option CpuId) : Bool :=
  (probe cpu).supportsAVX2

/-- Modelled from the spec: `at::cpu::is_cpu_support_avx512` (declared in
`ATen/cpu/Utils.h`, outside the provided sources) — queries AVX512 support of
the executing CPU, taking no input and returning a boolean. -/
def is_cpu_support_avx512 (cpu : Option CpuId) : Bool :=
  (probe cpu).supportsAVX512

/-- Modelled from the spec: `at::cpu::is_cpu_support_vnni` (declared in
`ATen/cpu/Utils.h`, outside the provided sources) — queries VNNI support of
the executing CPU, taking no input and returning a boolean. -/
def is_cpu_support_vnni (cpu : Option CpuId) : Bool :=
  (probe cpu).supportsVNNI

end CpuCapability

namespace TorchCpu

open CpuCapability

/-- Identifier of one of the `at::cpu` no-argument boolean detection
functions that the binding layer may register. -/
inductive CpuBoolFn where
  | avx2Fn
  | avx512Fn
  | vnniFn
deriving Repr, DecidableEq

/-- Semantics of a registered `at::cpu` detection function: calling it on the
process's CPU identification source. -/
def runCpuBoolFn : CpuBoolFn → Option CpuId → Bool
  | .avx2Fn, cpu => is_cpu_support_avx2 cpu
  | .avx512Fn, cpu => is_cpu_support_avx512 cpu
  | .vnniFn, cpu => is_cpu_support_vnni cpu

/-- An object living in the host interpreter's module namespace: a registered
no-argument boolean callable, a submodule (its docstring and its own
attributes), or any other pre-existing object the binding does not touch. -/
inductive PyObject where
  | boolFn (f : CpuBoolFn)
  | submodule (doc : String) (attrs : List (String × PyObject))
  | other (tag : Nat)

/-- The attribute table of an interpreter module: bindings from attribute
names to objects. -/
abbrev ModuleAttrs := List (String × PyObject)

/-- Sets attribute `name` of a module to `v`, replacing an existing binding
of the same name or appending a new one. -/
def setattr (attrs : ModuleAttrs) (name : String) (v : PyObject) :
    ModuleAttrs :=
  match attrs with
  | [] => [(name, v)]
  | (n, w) :: rest =>
      if n = name then (name, v) :: rest else (n, w) :: setattr rest name v

/-- Looks up attribute `name` of a module. -/
def getattr (attrs : ModuleAttrs) (name : String) : Option PyObject :=
  match attrs with
  | [] => none
  | (n, w) :: rest => if n = name then some w else getattr rest name

/-- The attribute table of the `_cpu` submodule after `initModule` has run:
the fragment's three `cpu.def(...)` calls, in source order, each registering
one `at::cpu` detection function under its source name. -/
def cpuSubmoduleAttrs : ModuleAttrs :=
  setattr (setattr (setattr [] "_is_cpu_support_avx2" (.boolFn .avx2Fn))
      "_is_cpu_support_avx512" (.boolFn .avx512Fn))
    "_is_cpu_support_vnni" (.boolFn .vnniFn)

/-- Embedding of `torch::cpu::initModule` (`torch/csrc/cpu/Module.cpp`):
`m.def_submodule("_cpu", "cpu related pybind.")` attaches a fresh submodule
to the host module, and the three `cpu.def(...)` calls populate it.  The
submodule object is shared, so attaching it first and populating it after is
observationally the same as attaching the populated submodule. -/
def initModule (module : ModuleAttrs) : ModuleAttrs :=
  setattr module "_cpu" (.submodule "cpu related pybind." cpuSubmoduleAttrs)

/-- Calls attribute `name` of a module with no arguments, expecting a
boolean: `none` models an interpreter error (missing attribute, or the
attribute is not a no-argument boolean callable). -/
def callBoolAttr (attrs : ModuleAttrs) (name : String) (cpu : Option CpuId) :
    Option Bool :=
  match getattr attrs name with
  | some (.boolFn f) => some (runCpuBoolFn f cpu)
  | _ => none

/-- The attribute name under which the binding registers each feature's
query. -/
def featureAttrName : FeatureId → String
  | .AVX2 => "_is_cpu_support_avx2"
  | .AVX512 => "_is_cpu_support_avx512"
  | .VNNI => "_is_cpu_support_vnni"

/-- A caller's feature-support query through the interpreter: look up the
`_cpu` submodule of the host module and call the feature's registered
callable with no arguments. -/
def callCpuQuery (module : ModuleAttrs) (f : FeatureId) (cpu : Option CpuId) :
    Option Bool :=
  match getattr module "_cpu" with
  | some (.submodule _ attrs) => callBoolAttr attrs (featureAttrName f) cpu
  | _ => none

theorem getattr_setattr_self (attrs : ModuleAttrs) (name : String)
    (v : PyObject) : getattr (setattr attrs name v) name = some v := by
  induction attrs with
  | nil => simp [setattr, getattr]
  | cons p rest ih =>
      obtain ⟨n, w⟩ := p
      by_cases h : n = name
      · simp [setattr, getattr, h]
      · simp [setattr, getattr, h, ih]

theorem getattr_setattr_other (attrs : ModuleAttrs) (name other : String)
    (v : PyObject) (h : other ≠ name) :
    getattr (setattr attrs name v) other = getattr attrs other := by
  have h' : ¬(name = other) := fun hc => h hc.symm
  induction attrs with
  | nil => simp [setattr, getattr, h']
  | cons p rest ih =>
      obtain ⟨n, w⟩ := p
      by_cases hp : n = name
      · subst hp
        simp [setattr, getattr, h']
      · simp [setattr, getattr, hp, ih]

/-- The `at::cpu` detection function the binding registers for each
feature. -/
def fnOf : FeatureId → CpuBoolFn
  | .AVX2 => .avx2Fn
  | .AVX512 => .avx512Fn
  | .VNNI => .vnniFn

theorem callCpuQuery_initModule (module : ModuleAttrs) (f : FeatureId)
    (cpu : Option CpuId) :
    callCpuQuery (initModule module) f cpu
      = some (runCpuBoolFn (fnOf f) cpu) := by
  have h := getattr_setattr_self module "_cpu"
      (PyObject.submodule "cpu related pybind." cpuSubmoduleAttrs)
  cases f <;> (unfold callCpuQuery initModule; rw [h]; rfl)

/-- C1: `initModule` registers exactly three CPU-feature-detection queries —
AVX2, AVX512 and VNNI support — as named callables in the host module's
`_cpu` submodule; each registered object is a no-argument boolean-returning
callable (a `PyObject.boolFn`, whose call semantics `runCpuBoolFn` yields a
`Bool`). -/
theorem claim_C1 (module : ModuleAttrs) :
    getattr (initModule module) "_cpu"
      = some (PyObject.submodule "cpu related pybind."
          [("_is_cpu_support_avx2", PyObject.boolFn CpuBoolFn.avx2Fn),
           ("_is_cpu_support_avx512", PyObject.boolFn CpuBoolFn.avx512Fn),
           ("_is_cpu_support_vnni", PyObject.boolFn CpuBoolFn.vnniFn)]) := by
  unfold initModule
  rw [getattr_setattr_self]
  rfl

/-- C2: for every recognized feature identifier, a feature-support query
through the registered binding never raises: it always succeeds and returns
a boolean (`some b`, never the interpreter-error outcome `none`). -/
theorem claim_C2 (module : ModuleAttrs) (f : FeatureId) (cpu : Option CpuId) :
    ∃ b : Bool, callCpuQuery (initModule module) f cpu = some b :=
  ⟨runCpuBoolFn (fnOf f) cpu, callCpuQuery_initModule module f cpu⟩

/-- C10: each registered callable delegates directly to the corresponding
`at::cpu` detection function with no wrapping, caching or transformation in
the binding layer: the boolean a call returns equals the value of
`is_cpu_support_avx2`, `is_cpu_support_avx512` or `is_cpu_support_vnni`
respectively. -/
theorem claim_C10 (module : ModuleAttrs) (cpu : Option CpuId) :
    callCpuQuery (initModule module) FeatureId.AVX2 cpu
      = some (is_cpu_support_avx2 cpu)
    ∧ callCpuQuery (initModule module) FeatureId.AVX512 cpu
      = some (is_cpu_support_avx512 cpu)
    ∧ callCpuQuery (initModule module) FeatureId.VNNI cpu
      = some (is_cpu_support_vnni cpu) :=
  ⟨callCpuQuery_initModule module FeatureId.AVX2 cpu,
   callCpuQuery_initModule module FeatureId.AVX512 cpu,
   callCpuQuery_initModule module FeatureId.VNNI cpu⟩

/-- C9: the only effect of `initModule` on the host module is to add one
submodule named `_cpu` containing exactly the three attributes
`_is_cpu_support_avx2`, `_is_cpu_support_avx512` and `_is_cpu_support_vnni`;
every other attribute of the host module is left unchanged. -/
theorem claim_C9 (module : ModuleAttrs) :
    getattr (initModule module) "_cpu"
      = some (PyObject.submodule "cpu related pybind."
          [("_is_cpu_support_avx2", PyObject.boolFn CpuBoolFn.avx2Fn),
           ("_is_cpu_support_avx512", PyObject.boolFn CpuBoolFn.avx512Fn),
           ("_is_cpu_support_vnni", PyObject.boolFn CpuBoolFn.vnniFn)])
    ∧ ∀ name : String, name ≠ "_cpu" →
        getattr (initModule module) name = getattr module name := by
  constructor
  · unfold initModule
    rw [getattr_setattr_self]
    rfl
  · intro name hname
    unfold initModule
    exact getattr_setattr_other module "_cpu" name _ hname

/-- Witness for C9 at a concrete host module: an unrelated attribute `foo`
is unchanged by `initModule`. -/
theorem claim_C9_witness :
    getattr (initModule [("foo", PyObject.other 0)]) "foo"
      = getattr [("foo", PyObject.other 0)] "foo" :=
  (claim_C9 [("foo", PyObject.other 0)]).2 "foo" (by decide)

end TorchCpu

namespace CpuCapability

/-- C3: for every feature, repeated calls to the support query within one
process return the same value every time: after any two call histories from
a fresh process, querying the same feature yields identical results. -/
theorem claim_C3 (cpu : Option CpuId) (f : FeatureId)
    (fs1 fs2 : List FeatureId) :
    (isSupported cpu f (runQueries cpu fs1 freshRegistry).2).1
      = (isSupported cpu f (runQueries cpu fs2 freshRegistry).2).1 := by
  have g1 := runQueries_good_preserved cpu fs1 freshRegistry
      (goodState_fresh cpu)
  have g2 := runQueries_good_preserved cpu fs2 freshRegistry
      (goodState_fresh cpu)
  rw [isSupported_good_fst cpu f _ g1, isSupported_good_fst cpu f _ g2]

/-- C4: whenever the probe cannot observe extended feature data — the CPU's
maximum supported leaf index is below the extended-features leaf, or the
platform cannot execute the probe at all — the probe yields a valid all-false
`CapabilityFlags` and every feature query returns `false`. -/
theorem claim_C4 (cpu : Option CpuId) (h : lacksExtendedLeaf cpu) :
    probe cpu = allFalse
    ∧ ∀ f : FeatureId, (isSupported cpu f freshRegistry).1 = false := by
  have hp : probe cpu = allFalse := by
    cases cpu with
    | none => rfl
    | some c =>
        have hc : c.maxLeaf < extendedFeaturesLeaf := h
        simp only [probe]
        rw [if_pos hc]
  refine ⟨hp, fun f => ?_⟩
  rw [isSupported_uncached cpu f freshRegistry rfl, hp]
  cases f <;> rfl

/-- Witness for C4 on a concrete CPU whose maximum supported leaf index (3)
is below the extended-features leaf, with garbage in the feature registers. -/
theorem claim_C4_witness :
    probe (some ⟨3, 37, 41⟩) = allFalse
    ∧ ∀ f : FeatureId,
        (isSupported (some ⟨3, 37, 41⟩) f freshRegistry).1 = false :=
  claim_C4 (some ⟨3, 37, 41⟩) (by decide : (3 : Nat) < extendedFeaturesLeaf)

/-- C5: the first query call in a process performs the hardware probe and
caches the outcome (probe counter goes to 1 and the cache holds exactly what
direct probing gives), and every subsequent call of any feature query on a
populated cache returns the cached value — equal to the direct-probe value —
without re-probing (the state, counter included, is unchanged). -/
theorem claim_C5 (cpu : Option CpuId) (f : FeatureId) :
    (isSupported cpu f freshRegistry).1 = flagOf f (probe cpu)
    ∧ (isSupported cpu f freshRegistry).2 = ⟨some (probe cpu), 1⟩
    ∧ ∀ (g : FeatureId) (s : RegistryState), s.cache = some (probe cpu) →
        isSupported cpu g s = (flagOf g (probe cpu), s) := by
  refine ⟨?_, ?_, fun g s hs => isSupported_cached cpu g s (probe cpu) hs⟩
  · rw [isSupported_uncached cpu f freshRegistry rfl]
  · rw [isSupported_uncached cpu f freshRegistry rfl]
    rfl

/-- Witness for C5 at a concrete populated state: a second query returns the
cached value and leaves the state untouched. -/
theorem claim_C5_witness :
    isSupported none FeatureId.VNNI ⟨some (probe none), 1⟩
      = (flagOf FeatureId.VNNI (probe none), ⟨some (probe none), 1⟩) :=
  (claim_C5 none FeatureId.AVX2).2.2 FeatureId.VNNI ⟨some (probe none), 1⟩ rfl

/-- C6: once the `CapabilityFlags` record is populated, it never changes for
the life of the process: every query operation leaves the registry state —
cached record and probe counter alike — completely unchanged. -/
theorem claim_C6 (cpu : Option CpuId) (f : FeatureId) (s : RegistryState)
    (flags : CapabilityFlags) (h : s.cache = some flags) :
    (isSupported cpu f s).2 = s := by
  rw [isSupported_cached cpu f s flags h]

/-- Witness for C6 at a concrete populated state. -/
theorem claim_C6_witness :
    (isSupported none FeatureId.AVX512 ⟨some allFalse, 1⟩).2
      = ⟨some allFalse, 1⟩ :=
  claim_C6 none FeatureId.AVX512 ⟨some allFalse, 1⟩ allFalse rfl

/-- C7: for any nonempty sequence of first-time queries (the spec's one-time
initialization barrier serializes the concurrent callers into such a
sequence), the hardware probe executes exactly once, and every caller
observes the fully-populated record direct probing gives — never a
half-initialized one. -/
theorem claim_C7 (cpu : Option CpuId) (fs : List FeatureId) (h : fs ≠ []) :
    (runQueries cpu fs freshRegistry).2.probeCount = 1
    ∧ (runQueries cpu fs freshRegistry).1
        = fs.map (fun f => flagOf f (probe cpu)) := by
  match fs, h with
  | f :: rest, _ =>
    have h1 : isSupported cpu f freshRegistry
        = (flagOf f (probe cpu), ⟨some (probe cpu), 1⟩) :=
      isSupported_uncached cpu f freshRegistry rfl
    have h2 := runQueries_cached cpu rest
        (⟨some (probe cpu), 1⟩ : RegistryState) rfl
    constructor
    · simp [runQueries, h1, h2]
    · simp [runQueries, h1, h2]

/-- Witness for C7: two concurrent first-time callers, serialized, trigger
exactly one probe and both observe the direct-probe answers. -/
theorem claim_C7_witness :
    (runQueries none [FeatureId.AVX2, FeatureId.VNNI] freshRegistry).2.probeCount
      = 1
    ∧ (runQueries none [FeatureId.AVX2, FeatureId.VNNI] freshRegistry).1
        = [FeatureId.AVX2, FeatureId.VNNI].map (fun f => flagOf f (probe none)) :=
  claim_C7 none [FeatureId.AVX2, FeatureId.VNNI] (by decide)

/-- C8: on a mock CPU identification source reporting the AVX2 bit set and
the AVX512 and VNNI bits clear, the AVX2 query returns `true` and the AVX512
and VNNI queries return `false`: each query decodes exactly its own
feature's bit. -/
theorem claim_C8 :
    (isSupported (some ⟨7, 2 ^ avx2Bit, 0⟩) FeatureId.AVX2 freshRegistry).1
      = true
    ∧ (isSupported (some ⟨7, 2 ^ avx2Bit, 0⟩) FeatureId.AVX512 freshRegistry).1
      = false
    ∧ (isSupported (some ⟨7, 2 ^ avx2Bit, 0⟩) FeatureId.VNNI freshRegistry).1
      = false := by
  decide

end CpuCapability
